import Mathlib

/-!
Verification of the channel-layout and buffer-registration core of the
`openexr-rs` crate (`src/frame_buffer.rs`), as a shallow embedding.

Modelling conventions:
* `PixelType` mirrors the channel type tag enum consumed by the native codec
  (the Rust declaration lives in the external `openexr_sys` crate; the spec
  names the three tags UINT, HALF, FLOAT).
* The two `ChannelData` impls (`u32`, `f32`) become the inductive
  `ScalarType` with `pixel_type` and byte `size` (`mem::size_of`).
* The eight `PixelStruct` impls (scalar, 2/3/4-tuples of scalars, arrays of
  length 1..4) become the inductive `PixelStructTy`; `channel_count`,
  `channel` and `channels` are translated impl by impl.  Rust's
  out-of-bounds array-literal indexing panic in the tuple impls is modelled
  by `Option`: `none` is a panic.
* `FrameBuffer` keeps its `(width, height)` dimensions and the list of
  bindings accumulated through `insert_raw` (the engine-side opaque handle
  is represented by that list).  Raw base addresses are byte offsets
  (`Nat`); a backing slice is given by its start address and its length in
  elements.  The `f64` fill value is never inspected by this code, so it is
  carried opaquely as a type parameter `α`.
* `insert_raw`, `insert_channel` and `insert_pixels` return the observable
  state after the call together with a `Bool` that is `true` exactly when
  the call panicked; on a panic the state component is the state at the
  moment the panic fired.  Two panic paths exist: the `panic!` on the
  backing-slice length check, and the `CString::new(name).unwrap()` inside
  `insert_raw`, which panics when the channel name contains an interior
  NUL byte (before the engine-side insert runs).
-/

/-- Channel type tag of the native codec (from the spec / `openexr_sys`):
interpretation of a channel's bytes. -/
inductive PixelType
  | UINT
  | HALF
  | FLOAT
deriving DecidableEq, Repr

/-- Scalar channel storage types: the types with a `ChannelData` impl in the
source (`u32` and `f32`). -/
inductive ScalarType
  | u32
  | f32
deriving DecidableEq, Repr

/-- `ChannelData::pixel_type` for each impl: `u32 ↦ UINT`, `f32 ↦ FLOAT`. -/
def ScalarType.pixel_type : ScalarType → PixelType
  | .u32 => .UINT
  | .f32 => .FLOAT

/-- `mem::size_of` for each scalar channel storage type (both are 4 bytes). -/
def ScalarType.size : ScalarType → Nat
  | .u32 => 4
  | .f32 => 4

/-- The aggregate shapes with a `PixelStruct` impl in the source: a single
scalar, heterogeneous 2/3/4-tuples of scalars, and homogeneous fixed arrays
of length 1, 2, 3, 4. -/
inductive PixelStructTy
  | scalar (t : ScalarType)
  | tuple2 (a b : ScalarType)
  | tuple3 (a b c : ScalarType)
  | tuple4 (a b c d : ScalarType)
  | arr1 (t : ScalarType)
  | arr2 (t : ScalarType)
  | arr3 (t : ScalarType)
  | arr4 (t : ScalarType)
deriving DecidableEq, Repr

/-- `mem::size_of::<T>()` for each aggregate shape: all scalars here are
4-byte sized and 4-byte aligned, so tuples and arrays have no padding and
their size is the sum of the constituent sizes. -/
def PixelStructTy.size : PixelStructTy → Nat
  | .scalar t => t.size
  | .tuple2 a b => a.size + b.size
  | .tuple3 a b c => a.size + b.size + c.size
  | .tuple4 a b c d => a.size + b.size + c.size + d.size
  | .arr1 t => 1 * t.size
  | .arr2 t => 2 * t.size
  | .arr3 t => 3 * t.size
  | .arr4 t => 4 * t.size

/-- `PixelStruct::channel_count` for each impl. -/
def PixelStructTy.channel_count : PixelStructTy → Nat
  | .scalar _ => 1
  | .tuple2 _ _ => 2
  | .tuple3 _ _ _ => 3
  | .tuple4 _ _ _ _ => 4
  | .arr1 _ => 1
  | .arr2 _ => 2
  | .arr3 _ => 3
  | .arr4 _ => 4

/-- `PixelStruct::channel` for each impl.  The tuple impls index an array
literal with `i`, which panics when `i` is out of bounds: that indexing is
`List` lookup here and a panic is `none`.  The scalar and array impls ignore
the bound and are total (`some` for every `i`). -/
def PixelStructTy.channel : PixelStructTy → Nat → Option (PixelType × Nat)
  | .scalar t, _ => some (t.pixel_type, 0)
  | .tuple2 a b, i =>
      [(a.pixel_type, 0), (b.pixel_type, a.size)][i]?
  | .tuple3 a b c, i =>
      [(a.pixel_type, 0), (b.pixel_type, a.size),
       (c.pixel_type, a.size + b.size)][i]?
  | .tuple4 a b c d, i =>
      [(a.pixel_type, 0), (b.pixel_type, a.size),
       (c.pixel_type, a.size + b.size),
       (d.pixel_type, a.size + b.size + c.size)][i]?
  | .arr1 t, _ => some (t.pixel_type, 0)
  | .arr2 t, i => some (t.pixel_type, i * t.size)
  | .arr3 t, i => some (t.pixel_type, i * t.size)
  | .arr4 t, i => some (t.pixel_type, i * t.size)

/-- `PixelStruct::channels`: `(0..channel_count()).map(T::channel)`.  Every
in-range index yields `some`, so collecting the values with `filterMap`
yields exactly the mapped sequence. -/
def PixelStructTy.channels (s : PixelStructTy) : List (PixelType × Nat) :=
  (List.range s.channel_count).filterMap s.channel

/-- The ordered list of constituent scalars of an aggregate shape, read off
the corresponding `PixelStruct` impl. -/
def PixelStructTy.constituents : PixelStructTy → List ScalarType
  | .scalar t => [t]
  | .tuple2 a b => [a, b]
  | .tuple3 a b c => [a, b, c]
  | .tuple4 a b c d => [a, b, c, d]
  | .arr1 t => [t]
  | .arr2 t => [t, t]
  | .arr3 t => [t, t, t]
  | .arr4 t => [t, t, t, t]

/-- Whether the shape is one of the tuple impls (the impls whose `channel`
indexes an array literal and hence can panic). -/
def PixelStructTy.isTuple : PixelStructTy → Bool
  | .tuple2 _ _ => true
  | .tuple3 _ _ _ => true
  | .tuple4 _ _ _ _ => true
  | _ => false

/-- One channel binding accumulated by `FrameBuffer::insert_raw`
(mirroring the argument list of `CEXR_FrameBuffer_insert`); `base` is the
byte address handed to the engine and `fill` the opaque `f64` fill value. -/
structure Binding (α : Type) where
  name : String
  ty : PixelType
  base : Nat
  xStride : Nat
  yStride : Nat
  xSampling : Int
  ySampling : Int
  fill : α
  tileX : Bool
  tileY : Bool
deriving DecidableEq, Repr

/-- The `FrameBuffer` struct: the declared `(width, height)` dimensions and
the engine-side handle, represented by the list of bindings inserted into
it so far. -/
structure FrameBuffer (α : Type) where
  dimensions : Nat × Nat
  bindings : List (Binding α)
deriving DecidableEq, Repr

/-- `FrameBuffer::new(width, height)`: fresh (empty) handle, fixed
dimensions. -/
def FrameBuffer.new (α : Type) (width height : Nat) : FrameBuffer α :=
  { dimensions := (width, height), bindings := [] }

/-- Whether a string contains an interior NUL character.  `CString::new`
in `insert_raw` scans the name's bytes for a 0 byte and fails when one is
present; in UTF-8 a 0 byte occurs exactly as the encoding of U+0000, so
the byte-level scan coincides with this character-level one. -/
def hasNul (name : String) : Bool :=
  name.toList.any (fun c => c == Char.ofNat 0)

/-- `FrameBuffer::insert_raw`: runs `CString::new(name).unwrap()` — which
panics when the name contains an interior NUL byte, before any mutation —
and then appends one binding with the given fields (no other checks).  The
flag is `true` exactly when the `unwrap` panicked. -/
def FrameBuffer.insert_raw (fb : FrameBuffer α) (name : String)
    (ty : PixelType) (base : Nat) (stride : Nat × Nat)
    (sampling : Int × Int) (fill : α) (tile_coords : Bool × Bool) :
    FrameBuffer α × Bool :=
  if hasNul name then
    (fb, true)
  else
    ({ fb with
       bindings := fb.bindings ++
         [{ name := name, ty := ty, base := base,
            xStride := stride.1, yStride := stride.2,
            xSampling := sampling.1, ySampling := sampling.2,
            fill := fill, tileX := tile_coords.1,
            tileY := tile_coords.2 }] },
     false)

/-- `FrameBuffer::insert_channel::<T>(name, fill, data)`; the backing slice
`data` is given by its length in elements and its start address.  The
result pairs the observable state after the call with a flag that is `true`
exactly when the call panicked: either the `data.len() != width * height`
check (which fires before anything is inserted) or the `CString` panic
inside `insert_raw`. -/
def FrameBuffer.insert_channel (fb : FrameBuffer α) (T : ScalarType)
    (name : String) (fill : α) (dataLen dataAddr : Nat) :
    FrameBuffer α × Bool :=
  if dataLen ≠ fb.dimensions.1 * fb.dimensions.2 then
    (fb, true)
  else
    fb.insert_raw name T.pixel_type dataAddr
      (T.size, fb.dimensions.1 * T.size) (1, 1) fill (false, false)

/-- `FrameBuffer::insert_pixels::<T>(channels, data)`: after the same
length check, walks `channels.iter().zip(T::channels())` and calls
`insert_raw` for each pair, with base `data.as_mut_ptr() + offset` and both
strides taken from the aggregate size.  A `CString` panic inside
`insert_raw` aborts the loop, freezing the state with the bindings
inserted so far. -/
def FrameBuffer.insert_pixels (fb : FrameBuffer α) (T : PixelStructTy)
    (channels : List (String × α)) (dataLen dataAddr : Nat) :
    FrameBuffer α × Bool :=
  if dataLen ≠ fb.dimensions.1 * fb.dimensions.2 then
    (fb, true)
  else
    (channels.zip T.channels).foldl
      (fun st p =>
        if st.2 then st
        else
          st.1.insert_raw p.1.1 p.2.1 (dataAddr + p.2.2)
            (T.size, fb.dimensions.1 * T.size) (1, 1) p.1.2 (false, false))
      (fb, false)

/-- A mutating call on a `FrameBuffer`: one of the two safe insertion
methods, with its full argument list. -/
inductive FBOp (α : Type)
  | chan (T : ScalarType) (name : String) (fill : α) (dataLen dataAddr : Nat)
  | pixels (T : PixelStructTy) (channels : List (String × α))
      (dataLen dataAddr : Nat)

/-- Run one call against a buffer state. -/
def FBOp.step (op : FBOp α) (fb : FrameBuffer α) : FrameBuffer α × Bool :=
  match op with
  | .chan T name fill dataLen dataAddr =>
      fb.insert_channel T name fill dataLen dataAddr
  | .pixels T channels dataLen dataAddr =>
      fb.insert_pixels T channels dataLen dataAddr

/-- Run a sequence of calls; a panic aborts the run, freezing the state at
the panic point (the flag records whether a panic occurred). -/
def FrameBuffer.applyOps (fb : FrameBuffer α) (ops : List (FBOp α)) :
    FrameBuffer α × Bool :=
  ops.foldl (fun st op => if st.2 then st else op.step st.1) (fb, false)

/-- The fixed expected tag table of the spec (§8 property 1 names
`32-bit float ↦ FLOAT`; §2 pairs the 32-bit unsigned integer with the UINT
tag). -/
def expectedTag : ScalarType → PixelType
  | .u32 => .UINT
  | .f32 => .FLOAT

theorem channels_length (s : PixelStructTy) :
    s.channels.length = s.channel_count := by
  cases s <;> rfl

theorem insert_raw_ok (fb : FrameBuffer α) (name : String)
    (ty : PixelType) (base : Nat) (stride : Nat × Nat)
    (sampling : Int × Int) (fill : α) (tile_coords : Bool × Bool)
    (h : hasNul name = false) :
    fb.insert_raw name ty base stride sampling fill tile_coords =
      ({ fb with
         bindings := fb.bindings ++
           [{ name := name, ty := ty, base := base,
              xStride := stride.1, yStride := stride.2,
              xSampling := sampling.1, ySampling := sampling.2,
              fill := fill, tileX := tile_coords.1,
              tileY := tile_coords.2 }] },
       false) := by
  simp [FrameBuffer.insert_raw, h]

theorem insert_raw_dims (fb : FrameBuffer α) (name : String)
    (ty : PixelType) (base : Nat) (stride : Nat × Nat)
    (sampling : Int × Int) (fill : α) (tile_coords : Bool × Bool) :
    (fb.insert_raw name ty base stride sampling fill
      tile_coords).1.dimensions = fb.dimensions := by
  rw [FrameBuffer.insert_raw]
  split <;> rfl

theorem foldl_insert_raw (l : List ((String × α) × (PixelType × Nat)))
    (fb : FrameBuffer α) (sz width addr : Nat)
    (hl : ∀ p ∈ l, hasNul p.1.1 = false) :
    l.foldl
      (fun st p =>
        if st.2 then st
        else
          st.1.insert_raw p.1.1 p.2.1 (addr + p.2.2)
            (sz, width * sz) (1, 1) p.1.2 (false, false)) (fb, false) =
    ({ fb with bindings := fb.bindings ++ l.map (fun p =>
        { name := p.1.1, ty := p.2.1, base := addr + p.2.2,
          xStride := sz, yStride := width * sz,
          xSampling := 1, ySampling := 1, fill := p.1.2,
          tileX := false, tileY := false }) },
     false) := by
  revert hl
  induction l generalizing fb with
  | nil =>
      intro hl
      simp
  | cons hd tl ih =>
      intro hl
      have h1 : hasNul hd.1.1 = false := hl hd (by simp)
      have htl : ∀ p ∈ tl, hasNul p.1.1 = false :=
        fun p hp => hl p (by simp [hp])
      have step :
          (if ((fb, false) : FrameBuffer α × Bool).2 = true then (fb, false)
           else
             (fb, false).1.insert_raw hd.1.1 hd.2.1 (addr + hd.2.2)
               (sz, width * sz) (1, 1) hd.1.2 (false, false)) =
          ({ fb with bindings := fb.bindings ++
              [{ name := hd.1.1, ty := hd.2.1, base := addr + hd.2.2,
                 xStride := sz, yStride := width * sz,
                 xSampling := 1, ySampling := 1, fill := hd.1.2,
                 tileX := false, tileY := false }] },
           false) := by
        simp [FrameBuffer.insert_raw, h1]
      rw [List.foldl_cons, step, ih _ htl]
      simp [List.append_assoc]

theorem foldl_insert_raw_dims (l : List ((String × α) × (PixelType × Nat)))
    (sz width addr : Nat) :
    ∀ st : FrameBuffer α × Bool,
      ((l.foldl
        (fun st p =>
          if st.2 then st
          else
            st.1.insert_raw p.1.1 p.2.1 (addr + p.2.2)
              (sz, width * sz) (1, 1) p.1.2 (false, false))
        st).1).dimensions = st.1.dimensions := by
  induction l with
  | nil => intro st; rfl
  | cons hd tl ih =>
      intro st
      rw [List.foldl_cons, ih]
      by_cases h2 : st.2 <;> simp [h2, insert_raw_dims]

/-- C5: every supported scalar channel storage type gets a fixed, stable
tag matching the expected table — `u32 ↦ UINT`, `f32 ↦ FLOAT`; the mapping
is a total function over the supported types, so there is exactly one tag
per type. -/
theorem c5_tag_table :
    (∀ t : ScalarType, t.pixel_type = expectedTag t) ∧
    ScalarType.pixel_type .u32 = PixelType.UINT ∧
    ScalarType.pixel_type .f32 = PixelType.FLOAT := by
  refine ⟨?_, rfl, rfl⟩
  intro t
  cases t <;> rfl

/-- C1: for every supported aggregate shape, `channel_count` equals the
declared arity (the number of constituent scalars), and for every in-range
index `i` the channel pair is the constituent's tag together with the sum
of the storage sizes of constituents `0..i` — so offsets start at 0, are
non-decreasing, each gap is the preceding constituent's size, and for
homogeneous arrays the offset is `i * element_size`. -/
theorem c1_layout (s : PixelStructTy) :
    s.channel_count = s.constituents.length ∧
    ∀ i (h : i < s.constituents.length),
      s.channel i =
        some ((s.constituents.get ⟨i, h⟩).pixel_type,
              ((s.constituents.take i).map ScalarType.size).sum) := by
  cases s <;> refine ⟨rfl, ?_⟩ <;> intro i h <;>
    simp only [PixelStructTy.constituents, List.length_cons,
      List.length_nil] at h <;>
    interval_cases i <;>
    simp [PixelStructTy.channel, PixelStructTy.constituents,
      ScalarType.size, List.get] <;>
    ring

/-- Witness for C1 at the shape `(f32, f32, u32)` and index 2. -/
theorem c1_layout_witness :
    PixelStructTy.channel (.tuple3 .f32 .f32 .u32) 2 =
      some (((PixelStructTy.constituents
                (.tuple3 .f32 .f32 .u32)).get ⟨2, by decide⟩).pixel_type,
            (((PixelStructTy.constituents
                (.tuple3 .f32 .f32 .u32)).take 2).map ScalarType.size).sum) :=
  (c1_layout (.tuple3 .f32 .f32 .u32)).2 2 (by decide)

/-- C6: for every shape, querying `channel i` with
`i >= channel_count()` is a contract violation whose outcome is either a
fatal error (the tuple impls panic: `none`) or a garbage value (the scalar
and array impls return an unspecified in-band value: `some`); no valid
answer is promised and no recoverable error is signalled. -/
theorem c6_out_of_range (s : PixelStructTy) (i : Nat)
    (h : s.channel_count ≤ i) :
    (s.isTuple = true ∧ s.channel i = none) ∨
    (s.isTuple = false ∧ (s.channel i).isSome = true) := by
  cases s
  case scalar t => exact Or.inr ⟨rfl, rfl⟩
  case arr1 t => exact Or.inr ⟨rfl, rfl⟩
  case arr2 t => exact Or.inr ⟨rfl, rfl⟩
  case arr3 t => exact Or.inr ⟨rfl, rfl⟩
  case arr4 t => exact Or.inr ⟨rfl, rfl⟩
  case tuple2 a b =>
    refine Or.inl ⟨rfl, List.getElem?_eq_none ?_⟩
    simp only [PixelStructTy.channel_count] at h
    simpa using h
  case tuple3 a b c =>
    refine Or.inl ⟨rfl, List.getElem?_eq_none ?_⟩
    simp only [PixelStructTy.channel_count] at h
    simpa using h
  case tuple4 a b c d =>
    refine Or.inl ⟨rfl, List.getElem?_eq_none ?_⟩
    simp only [PixelStructTy.channel_count] at h
    simpa using h

/-- Witness for C6 at the tuple shape `(u32, f32)` and index 5. -/
theorem c6_out_of_range_witness :
    (PixelStructTy.isTuple (.tuple2 .u32 .f32) = true ∧
     PixelStructTy.channel (.tuple2 .u32 .f32) 5 = none) ∨
    (PixelStructTy.isTuple (.tuple2 .u32 .f32) = false ∧
     (PixelStructTy.channel (.tuple2 .u32 .f32) 5).isSome = true) :=
  c6_out_of_range (.tuple2 .u32 .f32) 5 (by decide)

/-- C7: for every supported aggregate shape, the derived `channels()`
sequence is finite with exactly `channel_count` elements and its `i`-th
element is `channel(i)`; it is a pure derivation from the index range, so
re-deriving it always yields the same sequence. -/
theorem c7_channels_seq (s : PixelStructTy) :
    s.channels.length = s.channel_count ∧
    ∀ i (h : i < s.channel_count), s.channels[i]? = s.channel i := by
  cases s <;> refine ⟨rfl, ?_⟩ <;> intro i h <;>
    simp only [PixelStructTy.channel_count] at h <;>
    interval_cases i <;> rfl

/-- Witness for C7 at the shape `[u32; 3]` and index 1. -/
theorem c7_channels_seq_witness :
    (PixelStructTy.channels (.arr3 .u32)).length =
      PixelStructTy.channel_count (.arr3 .u32) ∧
    (PixelStructTy.channels (.arr3 .u32))[1]? =
      PixelStructTy.channel (.arr3 .u32) 1 :=
  ⟨(c7_channels_seq (.arr3 .u32)).1,
   (c7_channels_seq (.arr3 .u32)).2 1 (by decide)⟩

/-- C9: the scalar and `[T; 1]` impls return `(tag, 0)` for every index,
the `[T; 2..4]` impls return `(tag, i * size)` for every index — all of
them total, never panicking — and an out-of-range panic (`none`) can occur
exactly for the tuple impls: `channel i` is `some` unless the shape is a
tuple and `i` is out of range. -/
theorem c9_channel_totality :
    (∀ (t : ScalarType) (i : Nat),
        (PixelStructTy.scalar t).channel i = some (t.pixel_type, 0)) ∧
    (∀ (t : ScalarType) (i : Nat),
        (PixelStructTy.arr1 t).channel i = some (t.pixel_type, 0)) ∧
    (∀ (t : ScalarType) (i : Nat),
        (PixelStructTy.arr2 t).channel i = some (t.pixel_type, i * t.size)) ∧
    (∀ (t : ScalarType) (i : Nat),
        (PixelStructTy.arr3 t).channel i = some (t.pixel_type, i * t.size)) ∧
    (∀ (t : ScalarType) (i : Nat),
        (PixelStructTy.arr4 t).channel i = some (t.pixel_type, i * t.size)) ∧
    (∀ (s : PixelStructTy) (i : Nat),
        (s.channel i).isSome =
          (!s.isTuple || decide (i < s.channel_count))) := by
  refine ⟨fun t i => rfl, fun t i => rfl, fun t i => rfl,
    fun t i => rfl, fun t i => rfl, ?_⟩
  intro s i
  cases s
  case scalar t => simp [PixelStructTy.channel, PixelStructTy.isTuple]
  case arr1 t => simp [PixelStructTy.channel, PixelStructTy.isTuple]
  case arr2 t => simp [PixelStructTy.channel, PixelStructTy.isTuple]
  case arr3 t => simp [PixelStructTy.channel, PixelStructTy.isTuple]
  case arr4 t => simp [PixelStructTy.channel, PixelStructTy.isTuple]
  case tuple2 a b =>
    simp only [PixelStructTy.channel, PixelStructTy.isTuple,
      PixelStructTy.channel_count, Bool.not_true, Bool.false_or]
    by_cases hi : i < 2
    · interval_cases i <;> rfl
    · rw [List.getElem?_eq_none (by simpa using Nat.not_lt.mp hi)]
      simp [hi]
  case tuple3 a b c =>
    simp only [PixelStructTy.channel, PixelStructTy.isTuple,
      PixelStructTy.channel_count, Bool.not_true, Bool.false_or]
    by_cases hi : i < 3
    · interval_cases i <;> rfl
    · rw [List.getElem?_eq_none (by simpa using Nat.not_lt.mp hi)]
      simp [hi]
  case tuple4 a b c d =>
    simp only [PixelStructTy.channel, PixelStructTy.isTuple,
      PixelStructTy.channel_count, Bool.not_true, Bool.false_or]
    by_cases hi : i < 4
    · interval_cases i <;> rfl
    · rw [List.getElem?_eq_none (by simpa using Nat.not_lt.mp hi)]
      simp [hi]

/-- Counterexample to C3 as stated: on a 4×4 buffer with a backing slice
of exactly 16 elements, `insert_channel` still panics when the channel
name contains an interior NUL byte — the `CString::new(name).unwrap()`
inside `insert_raw` fires — so success is not guaranteed by the length
check alone. -/
theorem c3_nul_name_panics :
    16 = (FrameBuffer.new Nat 4 4).dimensions.1 *
      (FrameBuffer.new Nat 4 4).dimensions.2 ∧
    ((FrameBuffer.new Nat 4 4).insert_channel .f32
      ("R".push (Char.ofNat 0)) 7 16 1000).2 = true := by
  constructor
  · rfl
  · rfl

/-- C3 (amended): with a backing slice of exactly `width*height` elements
and a channel name free of interior NUL bytes, `insert_channel` succeeds
(no panic) and appends exactly one binding with per-pixel stride
`size_of::<T>()`, per-row stride `width * size_of::<T>()`, subsampling
`(1,1)`, tile flags `(false,false)`, and base the start of the backing
slice. -/
theorem c3_insert_channel_ok {α : Type} (fb : FrameBuffer α)
    (T : ScalarType) (name : String) (fill : α) (dataLen dataAddr : Nat)
    (h : dataLen = fb.dimensions.1 * fb.dimensions.2)
    (hname : hasNul name = false) :
    fb.insert_channel T name fill dataLen dataAddr =
      ({ fb with bindings := fb.bindings ++
          [{ name := name, ty := T.pixel_type, base := dataAddr,
             xStride := T.size, yStride := fb.dimensions.1 * T.size,
             xSampling := 1, ySampling := 1, fill := fill,
             tileX := false, tileY := false }] }, false) := by
  simp [FrameBuffer.insert_channel, FrameBuffer.insert_raw, h, hname]

/-- Witness for C3: a 4×4 buffer, the NUL-free name `R` and a 16-element
`f32` slice. -/
theorem c3_insert_channel_ok_witness :
    (FrameBuffer.new Nat 4 4).insert_channel .f32 "R" 7 16 1000 =
      ({ FrameBuffer.new Nat 4 4 with
          bindings := (FrameBuffer.new Nat 4 4).bindings ++
            [{ name := "R", ty := ScalarType.pixel_type .f32, base := 1000,
               xStride := ScalarType.size .f32,
               yStride := (FrameBuffer.new Nat 4 4).dimensions.1 *
                 ScalarType.size .f32,
               xSampling := 1, ySampling := 1, fill := 7,
               tileX := false, tileY := false }] }, false) :=
  c3_insert_channel_ok (FrameBuffer.new Nat 4 4) .f32 "R" 7 16 1000 rfl
    (by decide)

/-- C4: with a backing slice whose length differs from `width*height` —
shorter or longer — both `insert_channel` and `insert_pixels` panic (the
flag is `true`) instead of truncating or wrapping. -/
theorem c4_length_mismatch_panics {α : Type} (fb : FrameBuffer α)
    (T : ScalarType) (S : PixelStructTy) (name : String) (fill : α)
    (chans : List (String × α)) (dataLen dataAddr : Nat)
    (h : dataLen ≠ fb.dimensions.1 * fb.dimensions.2) :
    (fb.insert_channel T name fill dataLen dataAddr).2 = true ∧
    (fb.insert_pixels S chans dataLen dataAddr).2 = true := by
  simp [FrameBuffer.insert_channel, FrameBuffer.insert_pixels, h]

/-- Witness for C4: a 4×4 buffer with a 15-element slice (shorter) and a
17-element slice (longer). -/
theorem c4_length_mismatch_panics_witness :
    (((FrameBuffer.new Nat 4 4).insert_channel .u32 "R" 0 15 0).2 = true ∧
     ((FrameBuffer.new Nat 4 4).insert_pixels (.arr2 .f32) [] 15 0).2 =
       true) ∧
    (((FrameBuffer.new Nat 4 4).insert_channel .u32 "R" 0 17 0).2 = true ∧
     ((FrameBuffer.new Nat 4 4).insert_pixels (.arr2 .f32) [] 17 0).2 =
       true) :=
  ⟨c4_length_mismatch_panics (FrameBuffer.new Nat 4 4) .u32 (.arr2 .f32)
      "R" 0 [] 15 0 (by decide),
   c4_length_mismatch_panics (FrameBuffer.new Nat 4 4) .u32 (.arr2 .f32)
      "R" 0 [] 17 0 (by decide)⟩

/-- C10: both insertion methods are atomic on failure — when the length
check fails, the panic fires before any binding is inserted, so the
observable state at the panic is exactly the pre-call state. -/
theorem c10_atomic_on_failure {α : Type} (fb : FrameBuffer α)
    (T : ScalarType) (S : PixelStructTy) (name : String) (fill : α)
    (chans : List (String × α)) (dataLen dataAddr : Nat)
    (h : dataLen ≠ fb.dimensions.1 * fb.dimensions.2) :
    (fb.insert_channel T name fill dataLen dataAddr).1 = fb ∧
    (fb.insert_pixels S chans dataLen dataAddr).1 = fb := by
  simp [FrameBuffer.insert_channel, FrameBuffer.insert_pixels, h]

/-- Witness for C10: a 2×3 buffer with a 5-element slice. -/
theorem c10_atomic_on_failure_witness :
    ((FrameBuffer.new Nat 2 3).insert_channel .f32 "G" 1 5 8).1 =
      FrameBuffer.new Nat 2 3 ∧
    ((FrameBuffer.new Nat 2 3).insert_pixels (.tuple2 .u32 .f32)
        [("G", 1)] 5 8).1 = FrameBuffer.new Nat 2 3 :=
  c10_atomic_on_failure (FrameBuffer.new Nat 2 3) .f32 (.tuple2 .u32 .f32)
    "G" 1 [("G", 1)] 5 8 (by decide)

/-- Counterexample to C2 as stated: on a 2×2 buffer with a matching
4-element slice of `(f32, f32)` aggregates and two `(name, fill)` pairs, a
NUL byte inside the second name makes `insert_pixels` panic mid-loop
(`CString::new(name).unwrap()` in `insert_raw`) after inserting only the
first of the promised `min(2, 2) = 2` bindings. -/
theorem c2_nul_name_panics :
    ((FrameBuffer.new Nat 2 2).insert_pixels (.tuple2 .f32 .f32)
        [("R", 0), ("G".push (Char.ofNat 0), 1)] 4 0).2 = true ∧
    ((FrameBuffer.new Nat 2 2).insert_pixels (.tuple2 .f32 .f32)
        [("R", 0), ("G".push (Char.ofNat 0), 1)] 4 0).1.bindings.length
      = 1 := by
  constructor
  · rfl
  · rfl

/-- C2 (amended): with a backing slice of exactly `width*height`
aggregates, and provided every name paired with a channel is free of
interior NUL bytes, `insert_pixels` succeeds and appends exactly the
bindings obtained by pairing the `(name, fill)` list positionally with the
classification's `(tag, offset)` list: binding `k` has base
`slice start + offset_k`, per-pixel stride `size_of::<T>()`, per-row
stride `width * size_of::<T>()`, subsampling `(1,1)` and tile flags
`(false,false)`; the number of bindings is
`min (len names) channel_count`, with no error when the lengths differ. -/
theorem c2_insert_pixels_ok {α : Type} (fb : FrameBuffer α)
    (T : PixelStructTy) (chans : List (String × α)) (dataLen dataAddr : Nat)
    (h : dataLen = fb.dimensions.1 * fb.dimensions.2)
    (hz : ∀ p ∈ chans.zip T.channels, hasNul p.1.1 = false) :
    fb.insert_pixels T chans dataLen dataAddr =
      ({ fb with bindings := fb.bindings ++
          (chans.zip T.channels).map (fun p =>
            { name := p.1.1, ty := p.2.1, base := dataAddr + p.2.2,
              xStride := T.size, yStride := fb.dimensions.1 * T.size,
              xSampling := 1, ySampling := 1, fill := p.1.2,
              tileX := false, tileY := false }) }, false) ∧
    (chans.zip T.channels).length = min chans.length T.channel_count := by
  constructor
  · rw [FrameBuffer.insert_pixels, if_neg (by simp [h]),
      foldl_insert_raw (chans.zip T.channels) fb T.size fb.dimensions.1
        dataAddr hz]
  · rw [List.length_zip, channels_length]

/-- Witness for C2: a 2×2 buffer, the shape `(f32, f32, f32)` and three
NUL-free `(name, fill)` pairs over a 4-element slice starting at
address 0. -/
theorem c2_insert_pixels_ok_witness :
    (FrameBuffer.new Nat 2 2).insert_pixels (.tuple3 .f32 .f32 .f32)
        [("R", 10), ("G", 11), ("B", 12)] 4 0 =
      ({ FrameBuffer.new Nat 2 2 with
          bindings := (FrameBuffer.new Nat 2 2).bindings ++
            ([("R", (10 : Nat)), ("G", 11), ("B", 12)].zip
                (PixelStructTy.tuple3 .f32 .f32 .f32).channels).map (fun p =>
              { name := p.1.1, ty := p.2.1, base := 0 + p.2.2,
                xStride := PixelStructTy.size (.tuple3 .f32 .f32 .f32),
                yStride := (FrameBuffer.new Nat 2 2).dimensions.1 *
                  PixelStructTy.size (.tuple3 .f32 .f32 .f32),
                xSampling := 1, ySampling := 1, fill := p.1.2,
                tileX := false, tileY := false }) }, false) ∧
    ([("R", (10 : Nat)), ("G", 11), ("B", 12)].zip
        (PixelStructTy.tuple3 .f32 .f32 .f32).channels).length =
      min [("R", (10 : Nat)), ("G", 11), ("B", 12)].length
        (PixelStructTy.channel_count (.tuple3 .f32 .f32 .f32)) :=
  c2_insert_pixels_ok (FrameBuffer.new Nat 2 2) (.tuple3 .f32 .f32 .f32)
    [("R", 10), ("G", 11), ("B", 12)] 4 0 rfl (by decide)

theorem insert_channel_dims (fb : FrameBuffer α) (T : ScalarType)
    (name : String) (fill : α) (dataLen dataAddr : Nat) :
    (fb.insert_channel T name fill dataLen dataAddr).1.dimensions =
      fb.dimensions := by
  rw [FrameBuffer.insert_channel]
  split
  · rfl
  · exact insert_raw_dims fb name T.pixel_type dataAddr
      (T.size, fb.dimensions.1 * T.size) (1, 1) fill (false, false)

theorem insert_pixels_dims (fb : FrameBuffer α) (T : PixelStructTy)
    (chans : List (String × α)) (dataLen dataAddr : Nat) :
    (fb.insert_pixels T chans dataLen dataAddr).1.dimensions =
      fb.dimensions := by
  rw [FrameBuffer.insert_pixels]
  split
  · rfl
  · exact foldl_insert_raw_dims (chans.zip T.channels) T.size
      fb.dimensions.1 dataAddr (fb, false)

theorem step_dims (op : FBOp α) (fb : FrameBuffer α) :
    (op.step fb).1.dimensions = fb.dimensions := by
  cases op
  case chan T name fill dataLen dataAddr =>
    exact insert_channel_dims fb T name fill dataLen dataAddr
  case pixels T chans dataLen dataAddr =>
    exact insert_pixels_dims fb T chans dataLen dataAddr

theorem foldl_step_dims (ops : List (FBOp α)) :
    ∀ st : FrameBuffer α × Bool,
      ((ops.foldl (fun st op => if st.2 then st else op.step st.1)
        st).1).dimensions = st.1.dimensions := by
  induction ops with
  | nil => intro st; rfl
  | cons op tl ih =>
      intro st
      rw [List.foldl_cons, ih]
      by_cases h2 : st.2 <;> simp [h2, step_dims]

/-- C8: `dimensions()` is the pure projection of the `(width, height)`
fixed at construction: a fresh buffer reports exactly `(width, height)`,
and the value is unchanged by any sequence of `insert_channel` and
`insert_pixels` calls. -/
theorem c8_dimensions_pure (α : Type) (width height : Nat)
    (ops : List (FBOp α)) :
    (FrameBuffer.new α width height).dimensions = (width, height) ∧
    ((FrameBuffer.new α width height).applyOps ops).1.dimensions =
      (width, height) :=
  ⟨rfl, foldl_step_dims ops ((FrameBuffer.new α width height), false)⟩
